import Mathlib

/-!
# SQL Sentinel — verification of the SQL permission gatekeeper

Shallow embedding of the core of the `sqlsentinel` repository:

* `src/services/sqlValidator.ts` — client-side `SQLValidator.validate`
  (forbidden-keyword pass, multi-statement check, table RBAC, row-limit
  rewriting) together with `src/constants.ts`
  (`FORBIDDEN_SQL_KEYWORDS`, `MOCK_DATABASE_SCHEMA`);
* `src/server/middleware/rbac.js` (packed inside `src/server/db/meta.js`) —
  `checkOperationPermission`, `getRolePermissions`,
  `validateSqlPermissions`;
* `src/server/utils/connectionPool.js` (`src/unnamed/part_008`) —
  `createPool`, `getConnection`, `executeQuery`, pool registry.

JavaScript strings are modelled as `List Char` (accessed through `String`
at the API boundary).  The repository's regular expressions use only the
constructs `\b`, `\w`, `\s`, `^`, alternation of literal keywords and
`.*`; they are modelled by explicit scanning functions below, restricted
to the ASCII behaviour that coincides between JS and this model.
-/

set_option autoImplicit false

namespace SqlSentinel

/-! ## Character classes (JS `\w` and `\s`, ASCII fragment) -/

/-- JS `\w` word character: `[A-Za-z0-9_]`. -/
def wordChar (c : Char) : Bool :=
  c.isAlpha || c.isDigit || c == '_'

/-- JS whitespace (`\s`, `String.prototype.trim`), ASCII fragment. -/
def wsChar : Char → Bool
  | ' ' | '\t' | '\n' | '\r' | '\x0b' | '\x0c' => true
  | _ => false

/-- JS line terminators, which `.` in a regex does not match. -/
def lineTerm : Char → Bool
  | '\n' | '\r' | ' ' | ' ' => true
  | _ => false

/-- Models `String.prototype.toUpperCase` (ASCII). -/
def upStr (s : List Char) : List Char := s.map Char.toUpper

/-- Models `String.prototype.toLowerCase` (ASCII). -/
def lowStr (s : List Char) : List Char := s.map Char.toLower

/-- Models `String.prototype.trim`: strip whitespace from both ends. -/
def trimStr (s : List Char) : List Char :=
  ((s.dropWhile wsChar).reverse.dropWhile wsChar).reverse

/-- Models `sanitizedSql.replace` with the regex `;$`: drop one trailing semicolon. -/
def stripTrailingSemi (s : List Char) : List Char :=
  match s.reverse with
  | c :: rest => if c = ';' then rest.reverse else s
  | [] => s

/-- Models `String.prototype.includes(needle)`: substring test. -/
def containsSub (needle : List Char) : List Char → Bool
  | [] => needle.isPrefixOf ([] : List Char)
  | c :: cs => needle.isPrefixOf (c :: cs) || containsSub needle cs

/-! ## Word-boundary regex tests

All forbidden keywords consist solely of `\w` characters, so
`new RegExp('\\b' + kw + '\\b', 'i').test(s)` holds exactly when an
occurrence of `kw` (case-insensitively) in `s` is delimited on the left
by the start of the string or a non-word character, and on the right by
the end of the string or a non-word character.  `prev` carries the
character immediately before the current scan position. -/

/-- Left `\b` test at the current position. -/
def boundaryL (prev : Option Char) : Bool :=
  match prev with
  | none => true
  | some c => !wordChar c

/-- Right `\b` test for a match ending where `rest` begins. -/
def boundaryR (rest : List Char) : Bool :=
  match rest with
  | [] => true
  | c :: _ => !wordChar c

/-- Does `kw` match at the head of `s` with `\b` on both sides? -/
def wholeWordHere (kw s : List Char) (prev : Option Char) : Bool :=
  boundaryL prev && kw.isPrefixOf s && boundaryR (s.drop kw.length)

/-- Scan `s` for a whole-word occurrence of `kw`. -/
def containsWholeWordAux (kw : List Char) (prev : Option Char) : List Char → Bool
  | [] => wholeWordHere kw [] prev
  | c :: cs => wholeWordHere kw (c :: cs) prev || containsWholeWordAux kw (some c) cs

/-- Models `new RegExp('\\b' + kw + '\\b', 'i').test(s)` for a `\w`-only keyword. -/
def testWordBoundary (kw s : String) : Bool :=
  containsWholeWordAux (upStr kw.data) none (upStr s.data)

/-- After a whole-word `WITH`, search for a whole-word `AS` reachable by
`.*` (which cannot cross a line terminator). -/
def asSearch (prev : Option Char) : List Char → Bool
  | [] => wholeWordHere ['A', 'S'] [] prev
  | c :: cs =>
    wholeWordHere ['A', 'S'] (c :: cs) prev ||
      (!lineTerm c && asSearch (some c) cs)

/-- Models the CTE heuristic regex test `\bWITH\b.*\bAS\b` (flag `i`) of
`validateSqlPermissions` (`src/server/middleware/rbac.js`). -/
def cteRegexAux (prev : Option Char) : List Char → Bool
  | [] => false
  | c :: cs =>
    (wholeWordHere ['W', 'I', 'T', 'H'] (c :: cs) prev &&
      asSearch (some 'H') ((c :: cs).drop 4)) ||
    cteRegexAux (some c) cs

def testWithAs (s : String) : Bool :=
  cteRegexAux none (upStr s.data)

/-- Models `sql.toLowerCase().match` with regex `\b\w+\b` (flag `g`): the maximal runs of word
characters (for an all-`\w` pattern, `\b\w+\b` matches exactly the
maximal runs). -/
def wordTokensAux : List Char → List Char → List (List Char)
  | [], acc => if acc.isEmpty then [] else [acc.reverse]
  | c :: cs, acc =>
    if wordChar c then wordTokensAux cs (c :: acc)
    else if acc.isEmpty then wordTokensAux cs []
    else acc.reverse :: wordTokensAux cs []

def wordTokens (s : List Char) : List (List Char) :=
  wordTokensAux s []

/-- Models `sql.split(';')`. -/
def splitSemi : List Char → List (List Char)
  | [] => [[]]
  | c :: cs =>
    if c = ';' then [] :: splitSemi cs
    else
      match splitSemi cs with
      | [] => [[c]]
      | p :: ps => (c :: p) :: ps

/-! ## Data model (`src/unnamed/part_001`, types.ts) -/

/-- Mirrors `export enum UserRole` in types.ts. -/
inductive UserRole where
  | ANALYST
  | DEVELOPER
  | ADMIN
deriving DecidableEq, Repr

structure Column where
  name : String
  type : String
  description : String
deriving DecidableEq, Repr

/-- Mirrors `TableSchema` in types.ts: `restrictedRoles` is optional. -/
structure TableSchema where
  tableName : String
  restrictedRoles : Option (List UserRole) := none
  columns : List Column := []
deriving DecidableEq, Repr

/-- Mirrors `ValidationResult` in types.ts. -/
structure ValidationResult where
  isValid : Bool
  error : Option String := none
  sanitizedSql : Option String := none
deriving DecidableEq, Repr

/-! ## Constants (`src/constants.ts`) -/

def FORBIDDEN_SQL_KEYWORDS : List String :=
  ["DROP", "TRUNCATE", "ALTER", "DELETE", "UPDATE", "INSERT", "REPLACE",
   "GRANT", "REVOKE", "CREATE", "RENAME", "EXEC", "EXECUTE", "DATABASE", "SCHEMA"]

def MOCK_DATABASE_SCHEMA : List TableSchema :=
  [{ tableName := "sales_orders",
     columns :=
       [⟨"order_id", "INT", "Primary key for orders"⟩,
        ⟨"customer_id", "INT", "Link to customer"⟩,
        ⟨"order_date", "DATE", "Date order was placed"⟩,
        ⟨"total_amount", "DECIMAL(10,2)", "Total currency amount"⟩,
        ⟨"status", "VARCHAR", "Order status (Pending, Shipped, Cancelled)"⟩] },
   { tableName := "inventory",
     columns :=
       [⟨"product_id", "INT", "Unique product ID"⟩,
        ⟨"product_name", "VARCHAR", "Human readable name"⟩,
        ⟨"stock_level", "INT", "Quantity currently in warehouse"⟩,
        ⟨"unit_price", "DECIMAL(10,2)", "Cost per single item"⟩] },
   { tableName := "financial_reports",
     restrictedRoles := some [UserRole.DEVELOPER, UserRole.ADMIN],
     columns :=
       [⟨"report_id", "INT", "Report ID"⟩,
        ⟨"period", "VARCHAR", "Fiscal period Q1, Q2, etc."⟩,
        ⟨"net_profit", "DECIMAL(15,2)", "Bottom line profit"⟩,
        ⟨"tax_liability", "DECIMAL(15,2)", "Estimated taxes"⟩] },
   { tableName := "system_logs",
     restrictedRoles := some [UserRole.ADMIN],
     columns :=
       [⟨"log_id", "INT", "ID"⟩,
        ⟨"event_type", "VARCHAR", "Security, Error, Info"⟩,
        ⟨"timestamp", "DATETIME", "Event time"⟩,
        ⟨"user_id", "INT", "Actor ID"⟩] }]

/-! ## Client-side gatekeeper (`src/services/sqlValidator.ts`) -/

namespace SQLValidator

/-- Step 1 of `SQLValidator.validate`: for non-ADMIN roles, return the
first forbidden keyword that occurs as a whole word
(`for (const keyword of FORBIDDEN_SQL_KEYWORDS) { if (keywordRegex.test(sql)) return ... }`);
the whole pass is skipped for ADMIN. -/
def checkForbiddenKeywords (role : UserRole) (sql : String) : Option String :=
  if role = UserRole.ADMIN then none
  else SqlSentinel.FORBIDDEN_SQL_KEYWORDS.find? (fun kw => testWordBoundary kw sql)

/-- Step 2: `sql.includes(';') && sql.split(';').filter(p => p.trim().length > 0).length > 1`. -/
def multipleStatements (sql : String) : Bool :=
  containsSub [';'] sql.data &&
    ((splitSemi sql.data).filter (fun p => !(trimStr p).isEmpty)).length > 1

/-- Models `!table.restrictedRoles || table.restrictedRoles.includes(role)`. -/
def tableAccessible (role : UserRole) (t : TableSchema) : Bool :=
  match t.restrictedRoles with
  | none => true
  | some rs => rs.contains role

/-- Step 3 (table RBAC, run only when the active schema is non-empty):
first token of the SQL that names a schema table the role may not
access (`for (const table of usedTables) { if (!accessibleTables.includes(table)) return ... }`). -/
def tableAccessViolation (sql : String) (role : UserRole)
    (activeSchema : List TableSchema) : Option (List Char) :=
  if activeSchema.length > 0 then
    let accessibleTables :=
      (activeSchema.filter (tableAccessible role)).map (fun t => lowStr t.tableName.data)
    let sqlTokens := wordTokens (lowStr sql.data)
    let usedTables := sqlTokens.filter
      (fun token => activeSchema.any (fun s => lowStr s.tableName.data == token))
    usedTables.find? (fun t => !accessibleTables.contains t)
  else none

/-- Models the regex test with pattern `^\s*(SELECT|WITH)\b` and flag `i`. -/
def isSelectOrCTE (s : List Char) : Bool :=
  let t := upStr (s.dropWhile wsChar)
  (wholeWordHere (upStr "SELECT".data) t none) || (wholeWordHere (upStr "WITH".data) t none)

/-- Models `SQLValidator.validate(sql, role, schema?)` from
`src/services/sqlValidator.ts`, steps 1-4 in source order.
`activeSchema = schema || MOCK_DATABASE_SCHEMA`. -/
def validate (sql : String) (role : UserRole)
    (schema : Option (List TableSchema) := none) : ValidationResult :=
  let upperSql := upStr sql.data
  let activeSchema := schema.getD MOCK_DATABASE_SCHEMA
  match checkForbiddenKeywords role sql with
  | some keyword =>
    { isValid := false,
      error := some ("Security Violation: Forbidden keyword '" ++ keyword ++ "' detected.") }
  | none =>
    if multipleStatements sql then
      { isValid := false,
        error := some "Security Violation: Multiple SQL statements detected." }
    else
      match tableAccessViolation sql role activeSchema with
      | some table =>
        { isValid := false,
          error := some ("Access Denied: You do not have permission to query table '"
                          ++ String.mk table ++ "'.") }
      | none =>
        let sanitizedSql := stripTrailingSemi (trimStr sql.data)
        let final :=
          if isSelectOrCTE sanitizedSql
              && !containsSub "ROWNUM".data upperSql
              && !containsSub "FETCH FIRST".data upperSql then
            "SELECT * FROM (".data ++ sanitizedSql ++ ") WHERE ROWNUM <= 1000".data
          else sanitizedSql
        { isValid := true, sanitizedSql := some (String.mk final) }

end SQLValidator

/-! ## Policy store and server-side gatekeeper
(`src/server/middleware/rbac.js`, packed in `src/server/db/meta.js`)

The `role_permissions` SQLite table is modelled as a list of rows; the
prepared statements `isOperationAllowed` (`WHERE role = ? AND operation = ?`,
first row) and `getByRole` (`WHERE role = ?`, all rows) become `find?` and
`filter`.  Roles and operations are the strings the JS code compares. -/

/-- A row of the `role_permissions` table
(`role, operation, is_allowed, max_rows`). -/
structure RolePermissionRow where
  role : String
  operation : String
  is_allowed : Int
  max_rows : Int
deriving DecidableEq, Repr

/-- Models `permissionQueries.isOperationAllowed.get(role, operation)`. -/
def isOperationAllowedQuery (table : List RolePermissionRow)
    (role operation : String) : Option RolePermissionRow :=
  table.find? (fun r => r.role == role && r.operation == operation)

/-- Models `permissionQueries.getByRole.all(role)`. -/
def getByRoleQuery (table : List RolePermissionRow) (role : String) :
    List RolePermissionRow :=
  table.filter (fun r => r.role == role)

/-- The `{ allowed, maxRows }` result of `checkOperationPermission`. -/
structure OpPermission where
  allowed : Bool
  maxRows : Int
deriving DecidableEq, Repr

/-- Models `checkOperationPermission(role, operation)`: DDL and UNKNOWN are
hardcoded; everything else is looked up (with `operation.toUpperCase()`),
an absent row yielding not-allowed, and a present row yielding
`is_allowed === 1`. -/
def checkOperationPermission (table : List RolePermissionRow)
    (role operation : String) : OpPermission :=
  if operation = "DDL" then
    { allowed := role == "ADMIN", maxRows := 0 }
  else if operation = "UNKNOWN" then
    { allowed := false, maxRows := 0 }
  else
    match isOperationAllowedQuery table role (String.mk (upStr operation.data)) with
    | none => { allowed := false, maxRows := 0 }
    | some permission =>
      { allowed := permission.is_allowed == 1, maxRows := permission.max_rows }

/-- The result object of `getRolePermissions`. -/
structure RolePermissions where
  allowedOperations : List String
  maxRows : Int
deriving DecidableEq, Repr

/-- One iteration of the `for (const perm of permissions)` loop in
`getRolePermissions` (`if (perm.is_allowed) { push; maxRows = Math.max(...) }`). -/
def rolePermStep (acc : RolePermissions) (perm : RolePermissionRow) : RolePermissions :=
  if perm.is_allowed != 0 then
    { allowedOperations := acc.allowedOperations ++ [perm.operation],
      maxRows := max acc.maxRows perm.max_rows }
  else acc

/-- Models `getRolePermissions(role)`: fold of the loop over the role's rows,
starting from `{ allowedOperations: [], maxRows: 1000 }`. -/
def getRolePermissions (table : List RolePermissionRow) (role : String) :
    RolePermissions :=
  (getByRoleQuery table role).foldl rolePermStep
    { allowedOperations := [], maxRows := 1000 }

/-- The operation-detection chain of `validateSqlPermissions`:
`upperSql = sql.toUpperCase().trim()` then prefix regexes
(`/^\s*SELECT/i`, ..., note: no `\b` word boundary). -/
def classifyOperation (sql : String) : String :=
  let upperSql := trimStr (upStr sql.data)
  if "SELECT".data.isPrefixOf upperSql || "WITH".data.isPrefixOf upperSql then "SELECT"
  else if "INSERT".data.isPrefixOf upperSql || "INTO".data.isPrefixOf upperSql then "INSERT"
  else if "UPDATE".data.isPrefixOf upperSql then "UPDATE"
  else if "DELETE".data.isPrefixOf upperSql then "DELETE"
  else if "CREATE".data.isPrefixOf upperSql || "DROP".data.isPrefixOf upperSql
      || "ALTER".data.isPrefixOf upperSql || "TRUNCATE".data.isPrefixOf upperSql
      || "GRANT".data.isPrefixOf upperSql || "REVOKE".data.isPrefixOf upperSql
      || "RENAME".data.isPrefixOf upperSql then "DDL"
  else "UNKNOWN"

/-- The `{ valid, error?, maxRows }` result of `validateSqlPermissions`. -/
structure SqlPermResult where
  valid : Bool
  error : Option String := none
  maxRows : Int
deriving DecidableEq, Repr

/-- Models `validateSqlPermissions(sql, role)`: classify, check the primary
operation, then the `\bJOIN\b` and `\bWITH\b.*\bAS\b` modifier regexes
against `upperSql`. -/
def validateSqlPermissions (table : List RolePermissionRow)
    (sql : String) (role : String) : SqlPermResult :=
  let upperSql := String.mk (trimStr (upStr sql.data))
  let operation := classifyOperation sql
  let opPermission := checkOperationPermission table role operation
  if !opPermission.allowed then
    { valid := false,
      error := some ("You do not have permission to run " ++ operation ++ " queries"),
      maxRows := 0 }
  else if testWordBoundary "JOIN" upperSql
      && !(checkOperationPermission table role "JOIN").allowed then
    { valid := false,
      error := some "You do not have permission to use JOIN operations",
      maxRows := 0 }
  else if testWithAs upperSql
      && !(checkOperationPermission table role "CTE").allowed then
    { valid := false,
      error := some "You do not have permission to use Common Table Expressions (CTE)",
      maxRows := 0 }
  else
    { valid := true, maxRows := opPermission.maxRows }

/-! ## Connection pool manager
(`src/server/utils/connectionPool.js`, = `src/unnamed/part_008`)

The `db_connections` table is a list of configs; the module-level
`pools` `Map` keyed by connection id is an association list.  Driver
objects and live handles are external, so a pool is represented by the
`{ type }` tag `createPool` returns; the count of `createPool` calls is
made explicit so that theorems can speak about how many pools were
constructed. -/

/-- A row of the `db_connections` table. -/
structure DbConnConfig where
  id : Int
  name : String
  db_type : String
  host : String
  port : Int
  database_name : String
  username : String
  password_encrypted : String
  is_active : Int
deriving DecidableEq, Repr

/-- Models `connectionQueries.findById.get(connectionId)`. -/
def findConfigById (configs : List DbConnConfig) (connectionId : Int) :
    Option DbConnConfig :=
  configs.find? (fun c => c.id == connectionId)

/-- The `{ type, pool }` value `createPool` registers; the engine-specific
live pool object is external, so only the tag is kept. -/
structure PoolInfo where
  type : String
deriving DecidableEq, Repr

/-- Models `createPool(connection)`: dispatch on `connection.db_type.toUpperCase()`;
an unsupported type throws.  (Credential decryption and the driver calls
are external effects.) -/
def createPool (connection : DbConnConfig) : Except String PoolInfo :=
  let t := String.mk (upStr connection.db_type.data)
  if t = "ORACLE" then .ok { type := "ORACLE" }
  else if t = "MYSQL" then .ok { type := "MYSQL" }
  else if t = "POSTGRESQL" then .ok { type := "POSTGRESQL" }
  else .error ("Unsupported database type: " ++ connection.db_type)

/-- Models `pools.has(connectionId)`. -/
def poolsHas (pools : List (Int × PoolInfo)) (connectionId : Int) : Bool :=
  (pools.find? (fun p => p.1 == connectionId)).isSome

/-- Models `getConnection(connectionId)` (sequential semantics): returns the
updated `pools` registry, the number of `createPool` constructions
performed, and either the pool the borrowed connection came from or the
thrown error.  Mirrors the source order: config lookup, `is_active`
check, lazy `createPool` + `pools.set`, then the borrow. -/
def getConnection (configs : List DbConnConfig)
    (pools : List (Int × PoolInfo)) (connectionId : Int) :
    List (Int × PoolInfo) × Nat × Except String PoolInfo :=
  match findConfigById configs connectionId with
  | none =>
    (pools, 0, .error ("Database connection not found: " ++ toString connectionId))
  | some connConfig =>
    if connConfig.is_active == 0 then
      (pools, 0, .error ("Database connection is inactive: " ++ connConfig.name))
    else if poolsHas pools connectionId then
      match pools.find? (fun p => p.1 == connectionId) with
      | some p => (pools, 0, .ok p.2)
      | none => (pools, 0, .error "unreachable")
    else
      match createPool connConfig with
      | .error e => (pools, 0, .error e)
      | .ok poolInfo => (pools ++ [(connectionId, poolInfo)], 1, .ok poolInfo)

/-! ### First-use race in `getConnection`

Between `pools.has(connectionId)` and `pools.set(connectionId, poolInfo)`
the code suspends at `await createPool(connConfig)`.  Two concurrent
`getConnection` calls for the same unseen id are modelled as two tasks,
each with a program counter: `0` = about to run the `pools.has` check,
`1` = suspended inside `await createPool` (the check saw no pool),
`2` = past the create-if-missing block. -/

structure PoolRaceState where
  pc1 : Nat
  pc2 : Nat
  registered : Bool
  constructed : Nat
deriving DecidableEq, Repr

/-- Interleaved execution of the two tasks.  A `check` step runs
`if (!pools.has(id))` atomically: it either enters the construction
(`pc := 1`) or skips it (`pc := 2`).  A `create` step is the resumption
after `await createPool` finishing with `pools.set` (construction
counter bumped, pool registered). -/
inductive PoolRaceStep : PoolRaceState → PoolRaceState → Prop where
  | check1 (s : PoolRaceState) (h : s.pc1 = 0) :
      PoolRaceStep s { s with pc1 := if s.registered then 2 else 1 }
  | create1 (s : PoolRaceState) (h : s.pc1 = 1) :
      PoolRaceStep s { s with pc1 := 2, registered := true, constructed := s.constructed + 1 }
  | check2 (s : PoolRaceState) (h : s.pc2 = 0) :
      PoolRaceStep s { s with pc2 := if s.registered then 2 else 1 }
  | create2 (s : PoolRaceState) (h : s.pc2 = 1) :
      PoolRaceStep s { s with pc2 := 2, registered := true, constructed := s.constructed + 1 }

/-- Reachability under interleaved steps. -/
def PoolRaceReach : PoolRaceState → PoolRaceState → Prop :=
  Relation.ReflTransGen PoolRaceStep

/-- Both tasks start at the check, no pool registered, none constructed. -/
def poolRaceInit : PoolRaceState :=
  { pc1 := 0, pc2 := 0, registered := false, constructed := 0 }

/-! ## Query executor (`executeQuery` in `src/server/utils/connectionPool.js`)

Row handling per engine branch, with the rows the driver call returned
given as input.  The ORACLE branch passes `maxRows` to the driver as an
option and returns `result.rows || []` unsliced; the MYSQL and
POSTGRESQL branches slice the returned rows to `maxRows`
(`rows.slice(0, maxRows)`). -/

structure QueryRows (α : Type) where
  columns : List String
  rows : List α
  rowCount : Nat
deriving DecidableEq, Repr

/-- The result-shaping `switch (type)` of `executeQuery`, given the rows
the backend/driver call produced.  `none` models the thrown
`Unknown database type` error. -/
def executeQueryRows {α : Type} (dbType : String) (columns : List String)
    (backendRows : List α) (maxRows : Nat) : Option (QueryRows α) :=
  if dbType = "ORACLE" then
    some { columns := columns, rows := backendRows, rowCount := backendRows.length }
  else if dbType = "MYSQL" then
    let limitedRows := backendRows.take maxRows
    some { columns := columns, rows := limitedRows, rowCount := limitedRows.length }
  else if dbType = "POSTGRESQL" then
    let limitedRows := backendRows.take maxRows
    some { columns := columns, rows := limitedRows, rowCount := limitedRows.length }
  else none

/-! ## Helper lemmas -/

/-- Characterization of the `getRolePermissions` loop: starting from an
arbitrary accumulator, the fold appends the operations of the allowed
rows and maxes their `max_rows` into the accumulator. -/
theorem rolePermFold_spec (l : List RolePermissionRow) (ops : List String) (m : Int) :
    (l.foldl rolePermStep { allowedOperations := ops, maxRows := m }).allowedOperations
        = ops ++ ((l.filter (fun r => r.is_allowed != 0)).map (fun r => r.operation)) ∧
    (l.foldl rolePermStep { allowedOperations := ops, maxRows := m }).maxRows
        = (l.filter (fun r => r.is_allowed != 0)).foldl (fun a r => max a r.max_rows) m := by
  induction l generalizing ops m with
  | nil => simp
  | cons r l ih =>
    by_cases h : r.is_allowed = 0
    · simpa [rolePermStep, h] using ih ops m
    · simpa [rolePermStep, h] using ih (ops ++ [r.operation]) (max m r.max_rows)

/-! ## Theorems for the claims -/

/-- C1: `checkOperationPermission` is fail-closed and hardcoded: DDL is
allowed exactly for ADMIN with maxRows 0, UNKNOWN is never allowed, and
any other operation with no row in the `role_permissions` table for the
(role, operation) pair is not allowed. -/
theorem checkOperationPermission_fail_closed
    (table : List RolePermissionRow) (role op : String) :
    checkOperationPermission table role "DDL"
        = { allowed := role == "ADMIN", maxRows := 0 } ∧
    checkOperationPermission table role "UNKNOWN"
        = { allowed := false, maxRows := 0 } ∧
    (op ≠ "DDL" → op ≠ "UNKNOWN" →
      isOperationAllowedQuery table role (String.mk (upStr op.data)) = none →
      checkOperationPermission table role op = { allowed := false, maxRows := 0 }) := by
  refine ⟨rfl, rfl, fun h1 h2 h3 => ?_⟩
  simp [checkOperationPermission, h1, h2, h3]

/-- Witness for C1 at a concrete empty table and the SELECT operation. -/
theorem checkOperationPermission_fail_closed_witness :
    checkOperationPermission [] "ANALYST" "SELECT" = { allowed := false, maxRows := 0 } :=
  (checkOperationPermission_fail_closed [] "ANALYST" "SELECT").2.2
    (by decide) (by decide) rfl

/-- C5 counterexample: with a single ANALYST row `SELECT, allowed, max_rows = 500`,
`getRolePermissions` reports `maxRows = 1000` (the loop starts at 1000 and
only maxes upward), not the maximum 500 of the allowed operations. -/
theorem getRolePermissions_maxrows_counterexample :
    getRolePermissions [⟨"ANALYST", "SELECT", 1, 500⟩] "ANALYST"
        = { allowedOperations := ["SELECT"], maxRows := 1000 } ∧
    (1000 : Int) ≠ 500 := by
  decide

/-- C5 amended: `getRolePermissions` returns exactly the operations of the
role's rows whose `is_allowed` is set, and a `maxRows` equal to the
maximum of 1000 and the allowed rows' `max_rows` values (the fold starts
at 1000), not the plain maximum over the allowed operations. -/
theorem getRolePermissions_amended (table : List RolePermissionRow) (role : String) :
    (getRolePermissions table role).allowedOperations
        = ((getByRoleQuery table role).filter (fun r => r.is_allowed != 0)).map
            (fun r => r.operation) ∧
    (getRolePermissions table role).maxRows
        = ((getByRoleQuery table role).filter (fun r => r.is_allowed != 0)).foldl
            (fun a r => max a r.max_rows) 1000 := by
  simpa [getRolePermissions] using
    rolePermFold_spec (getByRoleQuery table role) [] 1000

/-- C6 counterexample: the primary-operation regexes have no trailing word
boundary, so a first token that merely begins with a keyword is
classified as that keyword's operation: `SELECTION` is classified as
SELECT and `CREATED_DATE` as DDL, where the claim requires them not to be. -/
theorem classifyOperation_prefix_counterexample :
    classifyOperation "SELECTION FROM t" = "SELECT" ∧
    classifyOperation "CREATED_DATE" = "DDL" := by
  decide

/-- C6 amended: classification matches the statement's first keyword by
prefix, case-insensitively and tolerant of leading whitespace, but
without word boundaries (a first token that merely begins with a keyword
is classified as that keyword's operation); SELECT/WITH map to SELECT,
INSERT and leading INTO to INSERT, UPDATE to UPDATE, DELETE to DELETE,
CREATE/DROP/ALTER/TRUNCATE/GRANT/REVOKE/RENAME to DDL, anything else to
UNKNOWN. -/
theorem classifyOperation_amended :
    (∀ sql : String,
      classifyOperation sql = "SELECT" ∨ classifyOperation sql = "INSERT" ∨
      classifyOperation sql = "UPDATE" ∨ classifyOperation sql = "DELETE" ∨
      classifyOperation sql = "DDL" ∨ classifyOperation sql = "UNKNOWN") ∧
    classifyOperation "  select * from t" = "SELECT" ∧
    classifyOperation "WITH c AS (SELECT 1) SELECT * FROM c" = "SELECT" ∧
    classifyOperation "INSERT INTO t VALUES (1)" = "INSERT" ∧
    classifyOperation "INTO t (x) VALUES (1)" = "INSERT" ∧
    classifyOperation "update t set x = 1" = "UPDATE" ∧
    classifyOperation "DELETE FROM t WHERE x = 1" = "DELETE" ∧
    classifyOperation "CREATE TABLE x (id INT)" = "DDL" ∧
    classifyOperation "DROP TABLE x" = "DDL" ∧
    classifyOperation "ALTER TABLE x ADD y INT" = "DDL" ∧
    classifyOperation "TRUNCATE TABLE x" = "DDL" ∧
    classifyOperation "GRANT SELECT ON t TO u" = "DDL" ∧
    classifyOperation "REVOKE SELECT ON t FROM u" = "DDL" ∧
    classifyOperation "RENAME TABLE x TO y" = "DDL" ∧
    classifyOperation "EXPLAIN PLAN FOR SELECT 1" = "UNKNOWN" ∧
    classifyOperation "SELECTION OF x" = "SELECT" ∧
    classifyOperation "CREATED_DATE IS NOT NULL" = "DDL" := by
  refine ⟨fun sql => ?_, by decide⟩
  unfold classifyOperation
  dsimp only
  split_ifs <;> simp

/-- C7 counterexample: validating the two-statement input for ANALYST is
invalid, but its error is the forbidden-keyword error for `DROP`, not the
multiple-statements error. -/
theorem validate_two_statements_counterexample :
    SQLValidator.validate "SELECT * FROM t; DROP TABLE t;" UserRole.ANALYST
        = { isValid := false,
            error := some "Security Violation: Forbidden keyword 'DROP' detected." } ∧
    ("Security Violation: Forbidden keyword 'DROP' detected." : String)
        ≠ "Security Violation: Multiple SQL statements detected." := by
  decide

/-- C7 amended: for ANALYST the forbidden-keyword pass runs first and
rejects the two-statement input with the `DROP` keyword error; the
multiple-statements error is produced for the same input only when the
keyword pass is skipped (ADMIN), or for stacked statements containing no
forbidden keyword. -/
theorem validate_two_statements_amended :
    SQLValidator.validate "SELECT * FROM t; DROP TABLE t;" UserRole.ANALYST
        = { isValid := false,
            error := some "Security Violation: Forbidden keyword 'DROP' detected." } ∧
    SQLValidator.validate "SELECT * FROM t; DROP TABLE t;" UserRole.ADMIN
        = { isValid := false,
            error := some "Security Violation: Multiple SQL statements detected." } ∧
    SQLValidator.validate "SELECT * FROM t; SELECT * FROM u;" UserRole.ANALYST
        = { isValid := false,
            error := some "Security Violation: Multiple SQL statements detected." } := by
  decide

/-- C9 counterexample: in the ORACLE branch of `executeQuery` the rows the
driver call returned are passed through unsliced (`maxRows` is only
forwarded as a driver option), so with 2 returned rows and `maxRows = 1`
the result has 2 rows and `rowCount = 2 > 1`. -/
theorem executeQuery_oracle_counterexample :
    executeQueryRows "ORACLE" ["C1"] [(0 : Nat), 1] 1
        = some { columns := ["C1"], rows := [0, 1], rowCount := 2 } ∧
    ¬(2 ≤ 1) := by
  decide

/-- C9 amended: the post-fetch truncation to `maxRows` at the
result-consumption layer happens in the MYSQL and POSTGRESQL branches
(`rows.slice(0, maxRows)`, so at most `maxRows` rows and
`rowCount ≤ maxRows`); the ORACLE branch instead returns the driver's
rows unmodified, delegating the cap to the driver-level `maxRows`
option. -/
theorem executeQuery_truncation_amended {α : Type} (columns : List String)
    (backendRows : List α) (maxRows : Nat) :
    (∃ q, executeQueryRows "MYSQL" columns backendRows maxRows = some q ∧
        q.rows.length ≤ maxRows ∧ q.rowCount = q.rows.length) ∧
    (∃ q, executeQueryRows "POSTGRESQL" columns backendRows maxRows = some q ∧
        q.rows.length ≤ maxRows ∧ q.rowCount = q.rows.length) ∧
    executeQueryRows "ORACLE" columns backendRows maxRows
        = some { columns := columns, rows := backendRows,
                 rowCount := backendRows.length } := by
  refine
    ⟨⟨{ columns := columns, rows := backendRows.take maxRows,
        rowCount := (backendRows.take maxRows).length }, ?_, ?_, rfl⟩,
     ⟨{ columns := columns, rows := backendRows.take maxRows,
        rowCount := (backendRows.take maxRows).length }, ?_, ?_, rfl⟩, ?_⟩ <;>
    simp [executeQueryRows, List.length_take]

/-- C2: for every non-ADMIN role, `SQLValidator.validate` rejects any SQL
in which some forbidden keyword occurs as a whole word; a SQL in which
no forbidden keyword occurs as a whole word (e.g. only inside a longer
identifier such as `CREATED_AT`) passes the keyword pass; for ADMIN the
keyword pass is skipped entirely; and the concrete `CREATED_AT`-style
query validates successfully for ANALYST. -/
theorem validate_forbidden_keywords (role : UserRole) (sql : String)
    (schema : Option (List TableSchema)) :
    (role ≠ UserRole.ADMIN →
      (∃ kw ∈ FORBIDDEN_SQL_KEYWORDS, testWordBoundary kw sql = true) →
      (SQLValidator.validate sql role schema).isValid = false) ∧
    ((∀ kw ∈ FORBIDDEN_SQL_KEYWORDS, testWordBoundary kw sql = false) →
      SQLValidator.checkForbiddenKeywords role sql = none) ∧
    SQLValidator.checkForbiddenKeywords UserRole.ADMIN sql = none ∧
    (SQLValidator.validate "SELECT created_at, order_id FROM sales_orders"
        UserRole.ANALYST).isValid = true := by
  refine ⟨fun hrole hex => ?_, fun hall => ?_, rfl, by decide⟩
  · have hcf : ∃ kw', SQLValidator.checkForbiddenKeywords role sql = some kw' := by
      unfold SQLValidator.checkForbiddenKeywords
      rw [if_neg hrole]
      exact Option.isSome_iff_exists.mp (List.find?_isSome.mpr hex)
    obtain ⟨kw', hkw'⟩ := hcf
    simp [SQLValidator.validate, hkw']
  · by_cases hr : role = UserRole.ADMIN
    · simp [SQLValidator.checkForbiddenKeywords, hr]
    · unfold SQLValidator.checkForbiddenKeywords
      rw [if_neg hr]
      exact List.find?_eq_none.mpr (fun kw hmem => by simp [hall kw hmem])

/-- Witness for C2: DEVELOPER is rejected on a whole-word `DROP`, and the
keyword pass passes a query whose only `CREATE` occurrence is inside the
identifier `created_at`. -/
theorem validate_forbidden_keywords_witness :
    (SQLValidator.validate "DROP TABLE x" UserRole.DEVELOPER none).isValid = false ∧
    SQLValidator.checkForbiddenKeywords UserRole.DEVELOPER
        "SELECT created_at FROM t" = none :=
  ⟨(validate_forbidden_keywords UserRole.DEVELOPER "DROP TABLE x" none).1
      (by decide) ⟨"DROP", by decide, by decide⟩,
   (validate_forbidden_keywords UserRole.DEVELOPER "SELECT created_at FROM t" none).2.1
      (by decide)⟩

/-- C4: when the permission table has ANALYST's SELECT row allowed with
`max_rows = 1000`, the server-side validation of
`SELECT * FROM sales_orders` for ANALYST is valid with `maxRows = 1000`
taken from the lookup, and the client-side validation wraps the SQL in
the row-limiting `ROWNUM` subquery. -/
theorem validate_analyst_select_1000
    (table : List RolePermissionRow) (row : RolePermissionRow)
    (hfind : isOperationAllowedQuery table "ANALYST" "SELECT" = some row)
    (hallow : row.is_allowed = 1) (hmax : row.max_rows = 1000) :
    validateSqlPermissions table "SELECT * FROM sales_orders" "ANALYST"
        = { valid := true, error := none, maxRows := 1000 } ∧
    SQLValidator.validate "SELECT * FROM sales_orders" UserRole.ANALYST none
        = { isValid := true, error := none,
            sanitizedSql :=
              some "SELECT * FROM (SELECT * FROM sales_orders) WHERE ROWNUM <= 1000" } := by
  constructor
  · have hclass : classifyOperation "SELECT * FROM sales_orders" = "SELECT" := by decide
    have hop : checkOperationPermission table "ANALYST" "SELECT"
        = { allowed := true, maxRows := 1000 } := by
      unfold checkOperationPermission
      rw [if_neg (by decide), if_neg (by decide)]
      rw [show String.mk (upStr "SELECT".data) = "SELECT" from rfl, hfind]
      simp [hallow, hmax]
    have hjoin : testWordBoundary "JOIN"
        (String.mk (trimStr (upStr "SELECT * FROM sales_orders".data))) = false := by decide
    have hcte : testWithAs
        (String.mk (trimStr (upStr "SELECT * FROM sales_orders".data))) = false := by decide
    simp [validateSqlPermissions, hclass, hop, hjoin, hcte]
  · decide

/-- Witness for C4 at the concrete one-row permission table. -/
theorem validate_analyst_select_1000_witness :
    validateSqlPermissions [⟨"ANALYST", "SELECT", 1, 1000⟩]
        "SELECT * FROM sales_orders" "ANALYST"
        = { valid := true, error := none, maxRows := 1000 } ∧
    SQLValidator.validate "SELECT * FROM sales_orders" UserRole.ANALYST none
        = { isValid := true, error := none,
            sanitizedSql :=
              some "SELECT * FROM (SELECT * FROM sales_orders) WHERE ROWNUM <= 1000" } :=
  validate_analyst_select_1000 [⟨"ANALYST", "SELECT", 1, 1000⟩]
    ⟨"ANALYST", "SELECT", 1, 1000⟩ (by decide) rfl rfl

/-- C8: whenever the trimmed, semicolon-stripped input passes the
`/^\s*(SELECT|WITH)\b/i` test and the input contains neither `ROWNUM` nor
`FETCH FIRST`, a successful validation returns the Oracle-dialect
rewriting `SELECT * FROM (original) WHERE ROWNUM <= 1000` with its fixed
bound, for every role and schema — the rewrite is not parameterized by
any engine type. -/
theorem validate_rownum_wrapper (sql : String) (role : UserRole)
    (schema : Option (List TableSchema))
    (hsel : SQLValidator.isSelectOrCTE (stripTrailingSemi (trimStr sql.data)) = true)
    (hrownum : containsSub "ROWNUM".data (upStr sql.data) = false)
    (hfetch : containsSub "FETCH FIRST".data (upStr sql.data) = false)
    (hvalid : (SQLValidator.validate sql role schema).isValid = true) :
    (SQLValidator.validate sql role schema).sanitizedSql
        = some (String.mk ("SELECT * FROM (".data
            ++ stripTrailingSemi (trimStr sql.data)
            ++ ") WHERE ROWNUM <= 1000".data)) := by
  unfold SQLValidator.validate at hvalid ⊢
  cases hcf : SQLValidator.checkForbiddenKeywords role sql with
  | some kw => simp [hcf] at hvalid
  | none =>
    cases hms : SQLValidator.multipleStatements sql with
    | true => simp [hcf, hms] at hvalid
    | false =>
      cases htv : SQLValidator.tableAccessViolation sql role
          (schema.getD MOCK_DATABASE_SCHEMA) with
      | some t => simp [hcf, hms, htv] at hvalid
      | none => simp [hcf, hms, htv, hsel, hrownum, hfetch]

/-- Witness for C8 at a concrete SELECT query. -/
theorem validate_rownum_wrapper_witness :
    (SQLValidator.validate "SELECT * FROM inventory" UserRole.ANALYST none).sanitizedSql
        = some (String.mk ("SELECT * FROM (".data
            ++ stripTrailingSemi (trimStr "SELECT * FROM inventory".data)
            ++ ") WHERE ROWNUM <= 1000".data)) :=
  validate_rownum_wrapper "SELECT * FROM inventory" UserRole.ANALYST none
    (by decide) (by decide) (by decide) (by decide)

/-- C10: if the requested connection id has no config row, or its config
is inactive, `getConnection` fails with an error, constructs no pool, and
leaves the pool registry unchanged. -/
theorem getConnection_missing_or_inactive
    (configs : List DbConnConfig) (pools : List (Int × PoolInfo))
    (connectionId : Int) :
    (findConfigById configs connectionId = none →
      getConnection configs pools connectionId
        = (pools, 0, .error ("Database connection not found: " ++ toString connectionId))) ∧
    (∀ cfg, findConfigById configs connectionId = some cfg → cfg.is_active = 0 →
      getConnection configs pools connectionId
        = (pools, 0, .error ("Database connection is inactive: " ++ cfg.name))) := by
  constructor
  · intro h
    simp [getConnection, h]
  · intro cfg h h0
    simp [getConnection, h, h0]

/-- Witness for C10: unknown id 7 on an empty config table, and inactive
id 3. -/
theorem getConnection_missing_or_inactive_witness :
    getConnection [] [] 7
        = ([], 0, .error ("Database connection not found: " ++ toString (7 : Int))) ∧
    getConnection [⟨3, "dev", "ORACLE", "h", 1521, "db", "u", "pw", 0⟩] [] 3
        = ([], 0, .error ("Database connection is inactive: " ++ "dev")) :=
  ⟨(getConnection_missing_or_inactive [] [] 7).1 rfl,
   (getConnection_missing_or_inactive
      [⟨3, "dev", "ORACLE", "h", 1521, "db", "u", "pw", 0⟩] [] 3).2
      ⟨3, "dev", "ORACLE", "h", 1521, "db", "u", "pw", 0⟩ (by decide) rfl⟩

/-- C3: the first-use check-then-create in `getConnection` is not guarded
across the `await createPool` suspension, so there is an interleaving of
two concurrent `getConnection` calls for the same previously-unseen
connection id in which both pass the `pools.has` check and TWO pools are
constructed for the id — refuting the at-most-one-construction
invariant the claim states. -/
theorem poolRace_double_construction :
    ∃ s : PoolRaceState, PoolRaceReach poolRaceInit s ∧
      s.pc1 = 2 ∧ s.pc2 = 2 ∧ s.constructed = 2 := by
  refine ⟨{ pc1 := 2, pc2 := 2, registered := true, constructed := 2 },
    ?_, rfl, rfl, rfl⟩
  exact Relation.ReflTransGen.head (PoolRaceStep.check1 poolRaceInit rfl)
    (Relation.ReflTransGen.head
      (PoolRaceStep.check2 { pc1 := 1, pc2 := 0, registered := false, constructed := 0 } rfl)
      (Relation.ReflTransGen.head
        (PoolRaceStep.create1 { pc1 := 1, pc2 := 1, registered := false, constructed := 0 } rfl)
        (Relation.ReflTransGen.single
          (PoolRaceStep.create2 { pc1 := 2, pc2 := 1, registered := true, constructed := 1 } rfl))))

end SqlSentinel
